import Mathlib

/-!
Verification of the weather-dashboard fetch pipeline (`src/streamlit_app.py`).

The core of the program is `fetch_weather_data`: for each city in the static
table `target_cities` it issues an HTTP GET with fixed query parameters,
parses the response for the current temperature and observation time,
reformats the timestamp, classifies the temperature into a color, derives an
elevation, and appends one row; any exception for a city is caught, reported
as an error string carrying the city name, and the loop continues.  The
result list is wrapped in a `pandas.DataFrame` and rendered.  The whole
per-cycle result is memoized with a 600-second time-to-live, and a refresh
button clears the memo and reruns the script.

The embedding below models numbers as rationals (exact arithmetic), the
network as an oracle `String → Params → NetResult` mapping each city's
request to its outcome, and the per-location body of the `for` loop as a
total function into `Except String Row` (the `Except.error` branch is the
`except Exception` handler reporting via `st.error`).
-/

set_option autoImplicit false

namespace StMap

/-- Static (latitude, longitude) pair, as in the `target_cities` dict. -/
structure Coords where
  lat : ℚ
  lon : ℚ
  deriving DecidableEq, Repr

/-- The static city table of `streamlit_app.py` lines 12-22, in the dict's
insertion order (Python dicts iterate in insertion order). -/
def target_cities : List (String × Coords) :=
  [("Fukuoka",   ⟨33.5904, 130.4017⟩),
   ("Saga",      ⟨33.2494, 130.2974⟩),
   ("Nagasaki",  ⟨32.7450, 129.8739⟩),
   ("Kumamoto",  ⟨32.7900, 130.7420⟩),
   ("Oita",      ⟨33.2381, 131.6119⟩),
   ("Miyazaki",  ⟨31.9110, 131.4240⟩),
   ("Kagoshima", ⟨31.5600, 130.5580⟩),
   ("Osaka",     ⟨34.6937, 135.5023⟩),
   ("Tokyo",     ⟨35.6895, 139.6917⟩)]

/-- Query parameters of the outbound request (lines 31-36). -/
structure Params where
  latitude : ℚ
  longitude : ℚ
  current : String
  timezone : String
  deriving DecidableEq, Repr

/-- The params dict built for a city's coordinates (lines 31-36). -/
def buildParams (coords : Coords) : Params :=
  { latitude := coords.lat
    longitude := coords.lon
    current := "temperature_2m"
    timezone := "Asia/Tokyo" }

/-- The `current` object of the JSON response body; `none` fields model
missing keys (a `KeyError` on access). -/
structure CurrentObj where
  time : Option String
  temperature_2m : Option ℚ
  deriving DecidableEq, Repr

/-- The JSON body: `malformed` models `response.json()` raising, `obj`
carries the optional `current` object. -/
inductive Body where
  | malformed : Body
  | obj : Option CurrentObj → Body
  deriving DecidableEq, Repr

/-- Outcome of `requests.get` for one city: `raised` models a transport
exception from `get` itself, `resp` a response with an HTTP status code and
a body. -/
inductive NetResult where
  | raised : String → NetResult
  | resp : ℕ → Body → NetResult
  deriving DecidableEq, Repr

/-- `response.raise_for_status()` raises exactly for status codes 400-599. -/
def is_http_error (status : ℕ) : Bool :=
  decide (400 ≤ status) && decide (status < 600)

/-! ### A model of `datetime.fromisoformat` and `strftime` -/

/-- A parsed datetime: the fields `datetime.fromisoformat` produces.
`tzOffMinutes` is the UTC offset in minutes (`none` for a naive datetime);
`strftime` never reads it. -/
structure PyDateTime where
  year : ℕ
  month : ℕ
  day : ℕ
  hour : ℕ
  minute : ℕ
  second : ℕ
  tzOffMinutes : Option ℤ
  deriving DecidableEq, Repr

def isLeap (y : ℕ) : Bool :=
  (decide (y % 4 = 0) && decide (y % 100 ≠ 0)) || decide (y % 400 = 0)

def daysInMonth (y m : ℕ) : ℕ :=
  if m = 2 then (if isLeap y then 29 else 28)
  else if m = 4 ∨ m = 6 ∨ m = 9 ∨ m = 11 then 30
  else 31

/-- Read exactly `k` decimal digits, returning their value and the rest. -/
def readDigits : ℕ → ℕ → List Char → Option (ℕ × List Char)
  | 0, acc, cs => some (acc, cs)
  | k + 1, acc, cs =>
    match cs with
    | [] => none
    | c :: rest =>
      if c.isDigit then readDigits k (acc * 10 + (c.toNat - 48)) rest else none

/-- Drop a maximal run of leading digits. -/
def dropDigits : List Char → List Char
  | [] => []
  | c :: rest => if c.isDigit then dropDigits rest else c :: rest

/-- A fractional-second part: at least one digit after the dot. -/
def dropFrac : List Char → Option (List Char)
  | [] => none
  | c :: rest => if c.isDigit then some (dropDigits rest) else none

def finishTz (plus : Bool) (hh mm : ℕ) : Option (Option ℤ) :=
  if hh < 24 ∧ mm < 60 then
    let total : ℤ := (hh : ℤ) * 60 + (mm : ℤ)
    some (some (if plus then total else -total))
  else none

/-- Parse the trailing UTC-offset part of an ISO-8601 string: empty (naive),
`Z`, or a sign followed by `HH`, `HH:MM` or `HHMM`. -/
def parseTzTail (cs : List Char) : Option (Option ℤ) :=
  match cs with
  | [] => some none
  | ['Z'] => some (some 0)
  | s :: rest =>
    if s = '+' ∨ s = '-' then
      match readDigits 2 0 rest with
      | some (hh, r2) =>
        match r2 with
        | [] => finishTz (s = '+') hh 0
        | ':' :: r3 =>
          match readDigits 2 0 r3 with
          | some (mm, []) => finishTz (s = '+') hh mm
          | _ => none
        | _ =>
          match readDigits 2 0 r2 with
          | some (mm, []) => finishTz (s = '+') hh mm
          | _ => none
      | none => none
    else none

/-- Parse the time-of-day part after the date: empty, or a separator and
`HH`, `HH:MM`, `HH:MM:SS` or `HH:MM:SS.f*`, followed by an offset tail. -/
def parseTimeTail (cs : List Char) : Option (ℕ × ℕ × ℕ × Option ℤ) :=
  match cs with
  | [] => some (0, 0, 0, none)
  | sep :: rest =>
    if sep = 'T' ∨ sep = ' ' then
      match readDigits 2 0 rest with
      | some (hh, r1) =>
        match r1 with
        | ':' :: r2 =>
          match readDigits 2 0 r2 with
          | some (mm, r3) =>
            match r3 with
            | ':' :: r4 =>
              match readDigits 2 0 r4 with
              | some (ss, r5) =>
                match r5 with
                | '.' :: r6 =>
                  match dropFrac r6 with
                  | some r7 => (parseTzTail r7).map (fun tz => (hh, mm, ss, tz))
                  | none => none
                | _ => (parseTzTail r5).map (fun tz => (hh, mm, ss, tz))
              | none => none
            | _ => (parseTzTail r3).map (fun tz => (hh, mm, 0, tz))
          | none => none
        | _ => (parseTzTail r1).map (fun tz => (hh, 0, 0, tz))
      | none => none
    else none

/-- Model of Python's `datetime.fromisoformat` on the `YYYY-MM-DD[*HH[:MM
[:SS[.f*]]]][offset]` subset it accepts, including field-range validation;
`none` models the `ValueError` raised on an invalid string. -/
def fromisoformat (s : String) : Option PyDateTime :=
  match readDigits 4 0 s.toList with
  | some (y, '-' :: r1) =>
    match readDigits 2 0 r1 with
    | some (mo, '-' :: r2) =>
      match readDigits 2 0 r2 with
      | some (d, r3) =>
        match parseTimeTail r3 with
        | some (hh, mi, ss, tz) =>
          if 1 ≤ mo ∧ mo ≤ 12 ∧ 1 ≤ d ∧ d ≤ daysInMonth y mo
             ∧ hh ≤ 23 ∧ mi ≤ 59 ∧ ss ≤ 59 then
            some ⟨y, mo, d, hh, mi, ss, tz⟩
          else none
        | none => none
      | _ => none
    | _ => none
  | _ => none

def pad2 (n : ℕ) : String :=
  if n < 10 then "0" ++ toString n else toString n

def pad4 (n : ℕ) : String :=
  if n < 10 then "000" ++ toString n
  else if n < 100 then "00" ++ toString n
  else if n < 1000 then "0" ++ toString n
  else toString n

/-- Model of `.strftime` with format `%Y/%m/%d %H:%M` (line 43): it prints
the naive calendar fields and never reads the UTC offset. -/
def strftime_fmt (dt : PyDateTime) : String :=
  pad4 dt.year ++ "/" ++ pad2 dt.month ++ "/" ++ pad2 dt.day ++ " "
    ++ pad2 dt.hour ++ ":" ++ pad2 dt.minute

/-- Replace only the UTC-offset field of a parsed datetime. -/
def setTz (dt : PyDateTime) (tz : Option ℤ) : PyDateTime :=
  { dt with tzOffMinutes := tz }

/-! ### The per-city loop body and the batch -/

/-- One row of the `weather_info` list (lines 55-63). -/
structure Row where
  City : String
  lat : ℚ
  lon : ℚ
  Temperature : ℚ
  Time : String
  color : List ℕ
  elevation : ℚ
  deriving DecidableEq, Repr

/-- The color assignment of lines 48-53: `[R, G, B, Alpha]` by temperature
threshold, with inclusive lower bounds 20 and 10. -/
def colorOf (temp : ℚ) : List ℕ :=
  if temp ≥ 20 then [255, 100, 0, 200]
  else if temp ≥ 10 then [255, 200, 0, 200]
  else [0, 150, 255, 200]

/-- The error string `st.error` shows for a failed city (line 65). -/
def errMsg (city msg : String) : String :=
  "Error fetching " ++ city ++ ": " ++ msg

/-- The body of the `for` loop for one city (lines 37-65): every exception
point of the `try` block, in program order, collapses to `Except.error` with
the city-tagged message; success builds the appended row. -/
def processCity (city : String) (coords : Coords) (r : NetResult) :
    Except String Row :=
  match r with
  | NetResult.raised msg => Except.error (errMsg city msg)
  | NetResult.resp status body =>
    if is_http_error status then
      Except.error (errMsg city ("HTTPError " ++ toString status))
    else
      match body with
      | Body.malformed => Except.error (errMsg city ("JSONDecodeError"))
      | Body.obj none => Except.error (errMsg city ("KeyError: current"))
      | Body.obj (some cur) =>
        match cur.time with
        | none => Except.error (errMsg city ("KeyError: time"))
        | some ts =>
          match fromisoformat ts with
          | none => Except.error (errMsg city ("ValueError: invalid isoformat string"))
          | some dt =>
            match cur.temperature_2m with
            | none => Except.error (errMsg city ("KeyError: temperature_2m"))
            | some temp =>
              Except.ok
                { City := city
                  lat := coords.lat
                  lon := coords.lon
                  Temperature := temp
                  Time := strftime_fmt dt
                  color := colorOf temp
                  elevation := temp * 5000 }

/-- Result of one batch: the `weather_info` rows, the `st.error` messages,
and the requests issued (one per city, issued before any failure of that
city can occur). -/
structure FetchOut where
  rows : List Row
  errors : List String
  requests : List (String × Params)
  deriving DecidableEq, Repr

/-- The `for city, coords in target_cities.items()` loop (lines 30-65),
generalized over the city list and the network oracle. -/
def fetchLoop (net : String → Params → NetResult) :
    List (String × Coords) → FetchOut
  | [] => ⟨[], [], []⟩
  | lc :: rest =>
    let p := buildParams lc.2
    let out := fetchLoop net rest
    match processCity lc.1 lc.2 (net lc.1 p) with
    | Except.ok row => ⟨row :: out.rows, out.errors, (lc.1, p) :: out.requests⟩
    | Except.error e => ⟨out.rows, e :: out.errors, (lc.1, p) :: out.requests⟩

/-- `fetch_weather_data` (lines 26-67), run against a network oracle. -/
def fetch_weather_data (net : String → Params → NetResult) : FetchOut :=
  fetchLoop net target_cities


/-- Extract the error of an `Except`, if any. -/
def errorOf (e : Except String Row) : Option String :=
  match e with
  | Except.error m => some m
  | Except.ok _ => none

theorem fetchLoop_nil (net : String → Params → NetResult) :
    fetchLoop net [] = ⟨[], [], []⟩ := rfl

theorem fetchLoop_cons_ok (net : String → Params → NetResult)
    (lc : String × Coords) (rest : List (String × Coords)) (row : Row)
    (h : processCity lc.1 lc.2 (net lc.1 (buildParams lc.2)) = Except.ok row) :
    fetchLoop net (lc :: rest) =
      ⟨row :: (fetchLoop net rest).rows, (fetchLoop net rest).errors,
       (lc.1, buildParams lc.2) :: (fetchLoop net rest).requests⟩ := by
  simp only [fetchLoop, h]

theorem fetchLoop_cons_error (net : String → Params → NetResult)
    (lc : String × Coords) (rest : List (String × Coords)) (e : String)
    (h : processCity lc.1 lc.2 (net lc.1 (buildParams lc.2)) = Except.error e) :
    fetchLoop net (lc :: rest) =
      ⟨(fetchLoop net rest).rows, e :: (fetchLoop net rest).errors,
       (lc.1, buildParams lc.2) :: (fetchLoop net rest).requests⟩ := by
  simp only [fetchLoop, h]

theorem processCity_error_shape (city : String) (coords : Coords) (r : NetResult)
    (e : String) (h : processCity city coords r = Except.error e) :
    ∃ m, e = errMsg city m := by
  cases r with
  | raised msg =>
    simp only [processCity] at h
    exact ⟨msg, ((Except.error.injEq _ _).mp h).symm⟩
  | resp status body =>
    cases hs : is_http_error status with
    | true =>
      simp only [processCity, hs, if_pos] at h
      exact ⟨_, ((Except.error.injEq _ _).mp h).symm⟩
    | false =>
      cases body with
      | malformed =>
        simp only [processCity, hs, Bool.false_eq_true, if_false] at h
        exact ⟨_, ((Except.error.injEq _ _).mp h).symm⟩
      | obj ocur =>
        cases ocur with
        | none =>
          simp only [processCity, hs, Bool.false_eq_true, if_false] at h
          exact ⟨_, ((Except.error.injEq _ _).mp h).symm⟩
        | some cur =>
          cases ht : cur.time with
          | none =>
            simp only [processCity, hs, Bool.false_eq_true, if_false, ht] at h
            exact ⟨_, ((Except.error.injEq _ _).mp h).symm⟩
          | some ts =>
            cases hd : fromisoformat ts with
            | none =>
              simp only [processCity, hs, Bool.false_eq_true, if_false, ht, hd] at h
              exact ⟨_, ((Except.error.injEq _ _).mp h).symm⟩
            | some dt =>
              cases htm : cur.temperature_2m with
              | none =>
                simp only [processCity, hs, Bool.false_eq_true, if_false, ht, hd, htm] at h
                exact ⟨_, ((Except.error.injEq _ _).mp h).symm⟩
              | some temp =>
                simp only [processCity, hs, Bool.false_eq_true, if_false, ht, hd, htm] at h
                exact Except.noConfusion h

theorem processCity_ok_shape (city : String) (coords : Coords) (r : NetResult) (row : Row)
    (h : processCity city coords r = Except.ok row) :
    ∃ status cur ts dt temp,
      r = NetResult.resp status (Body.obj (some cur))
      ∧ is_http_error status = false
      ∧ cur.time = some ts
      ∧ cur.temperature_2m = some temp
      ∧ fromisoformat ts = some dt
      ∧ row = { City := city, lat := coords.lat, lon := coords.lon,
                Temperature := temp, Time := strftime_fmt dt,
                color := colorOf temp, elevation := temp * 5000 } := by
  cases r with
  | raised msg =>
    simp only [processCity] at h
    exact Except.noConfusion h
  | resp status body =>
    cases hs : is_http_error status with
    | true =>
      simp only [processCity, hs, if_pos] at h
      exact Except.noConfusion h
    | false =>
      cases body with
      | malformed =>
        simp only [processCity, hs, Bool.false_eq_true, if_false] at h
        exact Except.noConfusion h
      | obj ocur =>
        cases ocur with
        | none =>
          simp only [processCity, hs, Bool.false_eq_true, if_false] at h
          exact Except.noConfusion h
        | some cur =>
          cases ht : cur.time with
          | none =>
            simp only [processCity, hs, Bool.false_eq_true, if_false, ht] at h
            exact Except.noConfusion h
          | some ts =>
            cases hd : fromisoformat ts with
            | none =>
              simp only [processCity, hs, Bool.false_eq_true, if_false, ht, hd] at h
              exact Except.noConfusion h
            | some dt =>
              cases htm : cur.temperature_2m with
              | none =>
                simp only [processCity, hs, Bool.false_eq_true, if_false, ht, hd, htm] at h
                exact Except.noConfusion h
              | some temp =>
                simp only [processCity, hs, Bool.false_eq_true, if_false, ht, hd, htm] at h
                exact ⟨status, cur, ts, dt, temp, rfl, hs, ht, htm, hd,
                  ((Except.ok.injEq _ _).mp h).symm⟩


/-- The per-city outcome a batch over `cities` observes, as a function of
the oracle alone: each city's fate is independent of every other city. -/
def outcomeFor (net : String → Params → NetResult) (lc : String × Coords) :
    Except String Row :=
  processCity lc.1 lc.2 (net lc.1 (buildParams lc.2))

theorem fetchLoop_rows_eq (net : String → Params → NetResult) :
    ∀ cities : List (String × Coords),
      (fetchLoop net cities).rows = cities.filterMap (fun lc => (outcomeFor net lc).toOption) := by
  intro cities
  induction cities with
  | nil => rfl
  | cons lc rest ih =>
    cases hp : outcomeFor net lc with
    | ok row =>
      rw [fetchLoop_cons_ok net lc rest row hp, List.filterMap_cons]
      simp only [hp, Except.toOption, ih]
    | error e =>
      rw [fetchLoop_cons_error net lc rest e hp, List.filterMap_cons]
      simp only [hp, Except.toOption, ih]

theorem fetchLoop_errors_eq (net : String → Params → NetResult) :
    ∀ cities : List (String × Coords),
      (fetchLoop net cities).errors = cities.filterMap (fun lc => errorOf (outcomeFor net lc)) := by
  intro cities
  induction cities with
  | nil => rfl
  | cons lc rest ih =>
    cases hp : outcomeFor net lc with
    | ok row =>
      rw [fetchLoop_cons_ok net lc rest row hp, List.filterMap_cons]
      simp only [hp, errorOf, ih]
    | error e =>
      rw [fetchLoop_cons_error net lc rest e hp, List.filterMap_cons]
      simp only [hp, errorOf, ih]

theorem fetchLoop_requests_eq (net : String → Params → NetResult) :
    ∀ cities : List (String × Coords),
      (fetchLoop net cities).requests = cities.map (fun lc => (lc.1, buildParams lc.2)) := by
  intro cities
  induction cities with
  | nil => rfl
  | cons lc rest ih =>
    cases hp : outcomeFor net lc with
    | ok row => rw [fetchLoop_cons_ok net lc rest row hp, List.map_cons, ih]
    | error e => rw [fetchLoop_cons_error net lc rest e hp, List.map_cons, ih]

theorem fetchLoop_length (net : String → Params → NetResult) :
    ∀ cities : List (String × Coords),
      (fetchLoop net cities).rows.length + (fetchLoop net cities).errors.length
        = cities.length := by
  intro cities
  induction cities with
  | nil => rfl
  | cons lc rest ih =>
    cases hp : outcomeFor net lc with
    | ok row =>
      rw [fetchLoop_cons_ok net lc rest row hp]
      simp only [List.length_cons]
      omega
    | error e =>
      rw [fetchLoop_cons_error net lc rest e hp]
      simp only [List.length_cons]
      omega

theorem mem_rows_exists (net : String → Params → NetResult)
    (cities : List (String × Coords)) (row : Row)
    (h : row ∈ (fetchLoop net cities).rows) :
    ∃ city coords, (city, coords) ∈ cities
      ∧ processCity city coords (net city (buildParams coords)) = Except.ok row := by
  rw [fetchLoop_rows_eq] at h
  obtain ⟨lc, hmem, hsome⟩ := List.mem_filterMap.mp h
  refine ⟨lc.1, lc.2, hmem, ?_⟩
  cases hp : outcomeFor net lc with
  | ok r =>
    rw [hp] at hsome
    cases hsome
    exact hp
  | error e => rw [hp] at hsome; cases hsome

theorem error_mem_of_outcome (net : String → Params → NetResult) :
    ∀ (cities : List (String × Coords)) (lc : String × Coords), lc ∈ cities →
      ∀ e, outcomeFor net lc = Except.error e → e ∈ (fetchLoop net cities).errors := by
  intro cities lc hmem e he
  rw [fetchLoop_errors_eq]
  exact List.mem_filterMap.mpr ⟨lc, hmem, by rw [he]; rfl⟩


/-! ### The 600-second memo and the refresh button -/

/-- One cached value of the `@st.cache_data(ttl=600)` memo: the time it was
stored and the whole batch result.  There is a single entry, keyed by
nothing. -/
structure CacheEntry where
  storedAt : ℕ
  value : FetchOut
  deriving DecidableEq, Repr

/-- A call of the memoized `fetch_weather_data` at wall-clock time `now`:
a stored value younger than 600 seconds is returned without any network
call; otherwise the batch runs and is stored.  The boolean records whether
the network was hit. -/
def runCachedFetch (net : String → Params → NetResult) (now : ℕ)
    (cache : Option CacheEntry) : FetchOut × Option CacheEntry × Bool :=
  match cache with
  | some e =>
    if now < e.storedAt + 600 then (e.value, some e, false)
    else (fetch_weather_data net, some ⟨now, fetch_weather_data net⟩, true)
  | none => (fetch_weather_data net, some ⟨now, fetch_weather_data net⟩, true)

/-- `st.cache_data.clear()` (line 84): the memo is emptied unconditionally. -/
def clearCache (_ : Option CacheEntry) : Option CacheEntry :=
  none

/-- The refresh button (lines 83-85): clear the memo, then `st.rerun()`
re-executes the script, whose next `fetch_weather_data()` call goes through
the memo again. -/
def refresh_action (net : String → Params → NetResult) (now : ℕ)
    (cache : Option CacheEntry) : FetchOut × Option CacheEntry × Bool :=
  runCachedFetch net now (clearCache cache)

/-! ### The rendered DataFrame and column selection (lines 67, 79) -/

/-- Column labels of `pd.DataFrame(weather_info)`: a DataFrame built from a
list of dicts takes its columns from the dicts' keys, so an empty list
yields a DataFrame with no columns at all. -/
def df_columnsOf (rows : List Row) : List String :=
  if rows.isEmpty then []
  else ["City", "lat", "lon", "Temperature", "Time", "color", "elevation"]

/-- `df[cols]` (line 79): selecting a list of column labels raises a
`KeyError` when any requested label is absent from the DataFrame. -/
def df_select (rows : List Row) (cols : List String) :
    Except String (List Row × List String) :=
  if cols.all (fun c => (df_columnsOf rows).contains c) then Except.ok (rows, cols)
  else Except.error ("KeyError: requested columns not in index")

/-! ### Concrete oracles used as witnesses -/

/-- A well-formed upstream `current` object with an integer temperature. -/
def demoCurrent : CurrentObj :=
  { time := some ("2024-06-01T15:00"), temperature_2m := some ((25 : ℚ)) }

/-- An oracle on which every request succeeds. -/
def demoNet : String → Params → NetResult :=
  fun _ _ => NetResult.resp 200 (Body.obj (some demoCurrent))

/-- An oracle on which every request raises a transport error. -/
def allFailNet : String → Params → NetResult :=
  fun _ _ => NetResult.raised ("ConnectionError")

/-- An oracle that fails exactly for Tokyo. -/
def mixedNet : String → Params → NetResult :=
  fun city _ =>
    if city = "Tokyo" then NetResult.raised ("ConnectionError")
    else NetResult.resp 200 (Body.obj (some demoCurrent))

def tokyoCoords : Coords := ⟨35.6895, 139.6917⟩

def fallbackRow : Row :=
  { City := "", lat := 0, lon := 0, Temperature := 0, Time := "", color := [], elevation := 0 }

def rowOf (e : Except String Row) : Row :=
  match e with
  | Except.ok r => r
  | Except.error _ => fallbackRow

/-- The row `processCity` produces for Tokyo on the all-success oracle. -/
def tokyoRow : Row :=
  rowOf (processCity ("Tokyo") tokyoCoords (demoNet ("Tokyo") (buildParams tokyoCoords)))

theorem tokyoRow_ok :
    processCity ("Tokyo") tokyoCoords (demoNet ("Tokyo") (buildParams tokyoCoords))
      = Except.ok tokyoRow := rfl


/-- Claim C1: for every row the fetch pipeline produces, the color bucket is
a total, deterministic function of the temperature with inclusive lower
bounds: temperature ≥ 20 gives the high bucket `[255, 100, 0, 200]`,
10 ≤ temperature < 20 the mid bucket `[255, 200, 0, 200]`, and
temperature < 10 the low bucket `[0, 150, 255, 200]`; the boundary values
20 and 10 land in the higher bucket, and every output row's color is
exactly `colorOf` of its temperature. -/
theorem C1_color_bucket :
    (∀ t : ℚ, (20 ≤ t → colorOf t = [255, 100, 0, 200])
      ∧ (10 ≤ t ∧ t < 20 → colorOf t = [255, 200, 0, 200])
      ∧ (t < 10 → colorOf t = [0, 150, 255, 200]))
    ∧ colorOf 20 = [255, 100, 0, 200]
    ∧ colorOf 10 = [255, 200, 0, 200]
    ∧ (∀ (net : String → Params → NetResult) (cities : List (String × Coords)) (row : Row),
        row ∈ (fetchLoop net cities).rows → row.color = colorOf row.Temperature) := by
  have hfun : ∀ t : ℚ, (20 ≤ t → colorOf t = [255, 100, 0, 200])
      ∧ (10 ≤ t ∧ t < 20 → colorOf t = [255, 200, 0, 200])
      ∧ (t < 10 → colorOf t = [0, 150, 255, 200]) := by
    intro t
    unfold colorOf
    split_ifs with h1 h2
    · exact ⟨fun _ => rfl,
        fun hh => absurd hh.2 (not_lt.mpr h1),
        fun hh => absurd hh (not_lt.mpr ((by norm_num : (10 : ℚ) ≤ 20).trans h1))⟩
    · exact ⟨fun hh => absurd hh h1,
        fun _ => rfl,
        fun hh => absurd hh (not_lt.mpr h2)⟩
    · exact ⟨fun hh => absurd hh h1,
        fun hh => absurd hh.1 h2,
        fun _ => rfl⟩
  refine ⟨hfun, (hfun 20).1 le_rfl, (hfun 10).2.1 ⟨le_rfl, by norm_num⟩, ?_⟩
  intro net cities row hrow
  obtain ⟨city, coords, hmem, hok⟩ := mem_rows_exists net cities row hrow
  obtain ⟨status, cur, ts, dt, temp, hr, hs, ht, htm, hd, hrow_eq⟩ :=
    processCity_ok_shape city coords _ row hok
  rw [hrow_eq]

/-- Witness for C1 at concrete temperatures and a concrete fetched row. -/
theorem C1_witness :
    colorOf 20 = [255, 100, 0, 200] ∧ colorOf 10 = [255, 200, 0, 200]
    ∧ colorOf 9 = [0, 150, 255, 200]
    ∧ tokyoRow.color = colorOf tokyoRow.Temperature :=
  ⟨(C1_color_bucket.1 20).1 le_rfl,
   (C1_color_bucket.1 10).2.1 ⟨le_rfl, by norm_num⟩,
   (C1_color_bucket.1 9).2.2 (by norm_num),
   C1_color_bucket.2.2.2 demoNet [(("Tokyo"), tokyoCoords)] tokyoRow
     (by rw [fetchLoop_cons_ok demoNet (("Tokyo"), tokyoCoords) [] tokyoRow tokyoRow_ok]
         exact List.Mem.head _)⟩

/-- Claim C2: for every input city table and every pattern of per-location
outcomes, the batch is total, each city's presence in the result depends
only on its own outcome, sizes satisfy rows + errors = input and
rows = input − errors, and every failed city's error message is in the
reported list and carries that city's name. -/
theorem C2_failure_isolation :
    ∀ (net : String → Params → NetResult) (cities : List (String × Coords)),
      (fetchLoop net cities).rows.length + (fetchLoop net cities).errors.length = cities.length
      ∧ (fetchLoop net cities).rows.length
          = cities.length - (fetchLoop net cities).errors.length
      ∧ (fetchLoop net cities).rows
          = cities.filterMap (fun lc => (outcomeFor net lc).toOption)
      ∧ (∀ lc, lc ∈ cities → ∀ e, outcomeFor net lc = Except.error e →
          e ∈ (fetchLoop net cities).errors ∧ ∃ m, e = errMsg lc.1 m) := by
  intro net cities
  have hlen := fetchLoop_length net cities
  refine ⟨hlen, by omega, fetchLoop_rows_eq net cities, ?_⟩
  intro lc hmem e he
  exact ⟨error_mem_of_outcome net cities lc hmem e he,
    processCity_error_shape lc.1 lc.2 _ e he⟩

/-- Witness for C2: on an oracle failing exactly for Tokyo, Tokyo's tagged
error message is reported. -/
theorem C2_witness :
    errMsg ("Tokyo") ("ConnectionError") ∈ (fetchLoop mixedNet [(("Tokyo"), tokyoCoords)]).errors
    ∧ ∃ m, errMsg ("Tokyo") ("ConnectionError") = errMsg ("Tokyo") m :=
  (C2_failure_isolation mixedNet [(("Tokyo"), tokyoCoords)]).2.2.2
    (("Tokyo"), tokyoCoords) (List.Mem.head _) (errMsg ("Tokyo") ("ConnectionError")) rfl

/-- Claim C3: every output row's elevation is exactly its temperature times
5000, with no clamping or normalization. -/
theorem C3_elevation_exact :
    ∀ (net : String → Params → NetResult) (cities : List (String × Coords)) (row : Row),
      row ∈ (fetchLoop net cities).rows → row.elevation = row.Temperature * 5000 := by
  intro net cities row hrow
  obtain ⟨city, coords, hmem, hok⟩ := mem_rows_exists net cities row hrow
  obtain ⟨status, cur, ts, dt, temp, hr, hs, ht, htm, hd, hrow_eq⟩ :=
    processCity_ok_shape city coords _ row hok
  rw [hrow_eq]

/-- An upstream `current` object reporting a sub-zero temperature. -/
def coldCurrent : CurrentObj :=
  { time := some ("2024-01-15T07:30"), temperature_2m := some ((-5 : ℚ)) }

/-- An oracle on which every request succeeds with temperature −5 °C. -/
def coldNet : String → Params → NetResult :=
  fun _ _ => NetResult.resp 200 (Body.obj (some coldCurrent))

def sapporoCoords : Coords := ⟨43.0618, 141.3545⟩

/-- The row `processCity` produces for a −5 °C reading. -/
def coldRow : Row :=
  rowOf (processCity ("Sapporo") sapporoCoords (coldNet ("Sapporo") (buildParams sapporoCoords)))

theorem coldRow_ok :
    processCity ("Sapporo") sapporoCoords (coldNet ("Sapporo") (buildParams sapporoCoords))
      = Except.ok coldRow := rfl

/-- Witness for C3: the −5 °C row has elevation −5 × 5000 = −25000. -/
theorem C3_witness :
    coldRow.elevation = coldRow.Temperature * 5000 ∧ coldRow.elevation = -25000 := by
  have hm : coldRow ∈ (fetchLoop coldNet [(("Sapporo"), sapporoCoords)]).rows := by
    rw [fetchLoop_cons_ok coldNet (("Sapporo"), sapporoCoords) [] coldRow coldRow_ok]
    exact List.Mem.head _
  have h := C3_elevation_exact coldNet [(("Sapporo"), sapporoCoords)] coldRow hm
  refine ⟨h, ?_⟩
  have ht : coldRow.Temperature = (-5 : ℚ) := rfl
  rw [h, ht]
  norm_num


/-- Claim C4 (divergence): when every city fails, the fetch does return an
empty result with all nine errors reported — but the resulting DataFrame
has no columns at all, so the downstream column selection
`df[['City', 'Temperature', 'Time']]` of line 79 raises a `KeyError`
instead of rendering an empty table. -/
theorem C4_empty_batch_keyerror :
    (fetch_weather_data allFailNet).rows = []
    ∧ (fetch_weather_data allFailNet).errors.length = 9
    ∧ df_columnsOf (fetch_weather_data allFailNet).rows = []
    ∧ df_select (fetch_weather_data allFailNet).rows (["City", "Temperature", "Time"])
        = Except.error ("KeyError: requested columns not in index") :=
  ⟨rfl, rfl, rfl, rfl⟩

/-- Claim C5: every output row's displayed time is obtained by parsing the
upstream ISO-8601 string and reformatting it as `YYYY/MM/DD HH:MM`; the
formatter never reads the UTC-offset field, and concrete strings differing
only in their offset suffix format identically. -/
theorem C5_observedAt_format :
    (∀ (dt : PyDateTime) (tz1 tz2 : Option ℤ),
        strftime_fmt (setTz dt tz1) = strftime_fmt (setTz dt tz2))
    ∧ (fromisoformat ("2024-06-01T15:00")).map strftime_fmt = some ("2024/06/01 15:00")
    ∧ (fromisoformat ("2024-06-01T15:00+09:00")).map strftime_fmt = some ("2024/06/01 15:00")
    ∧ (fromisoformat ("2024-06-01T15:00Z")).map strftime_fmt = some ("2024/06/01 15:00")
    ∧ (fromisoformat ("2024-06-01T15:00:30.500-05:30")).map strftime_fmt
        = some ("2024/06/01 15:00")
    ∧ ∀ (net : String → Params → NetResult) (cities : List (String × Coords)) (row : Row),
        row ∈ (fetchLoop net cities).rows →
        ∃ city coords status cur ts dt,
          (city, coords) ∈ cities
          ∧ net city (buildParams coords) = NetResult.resp status (Body.obj (some cur))
          ∧ cur.time = some ts
          ∧ fromisoformat ts = some dt
          ∧ row.Time = strftime_fmt dt
          ∧ row.Time = pad4 dt.year ++ "/" ++ pad2 dt.month ++ "/" ++ pad2 dt.day ++ " "
              ++ pad2 dt.hour ++ ":" ++ pad2 dt.minute := by
  refine ⟨fun dt tz1 tz2 => rfl, rfl, rfl, rfl, rfl, ?_⟩
  intro net cities row hrow
  obtain ⟨city, coords, hmem, hok⟩ := mem_rows_exists net cities row hrow
  obtain ⟨status, cur, ts, dt, temp, hr, hs, ht, htm, hd, hrow_eq⟩ :=
    processCity_ok_shape city coords _ row hok
  exact ⟨city, coords, status, cur, ts, dt, hmem, hr, ht, hd,
    by rw [hrow_eq], by rw [hrow_eq]; rfl⟩

/-- Witness for C5 at a concrete fetched row. -/
theorem C5_witness :
    strftime_fmt (setTz ⟨2024, 6, 1, 15, 0, 0, none⟩ (some 540))
      = strftime_fmt (setTz ⟨2024, 6, 1, 15, 0, 0, none⟩ none)
    ∧ ∃ city coords status cur ts dt,
        (city, coords) ∈ [(("Tokyo"), tokyoCoords)]
        ∧ demoNet city (buildParams coords) = NetResult.resp status (Body.obj (some cur))
        ∧ cur.time = some ts
        ∧ fromisoformat ts = some dt
        ∧ tokyoRow.Time = strftime_fmt dt
        ∧ tokyoRow.Time = pad4 dt.year ++ "/" ++ pad2 dt.month ++ "/" ++ pad2 dt.day ++ " "
            ++ pad2 dt.hour ++ ":" ++ pad2 dt.minute :=
  ⟨C5_observedAt_format.1 ⟨2024, 6, 1, 15, 0, 0, none⟩ (some 540) none,
   C5_observedAt_format.2.2.2.2.2 demoNet [(("Tokyo"), tokyoCoords)] tokyoRow
     (by rw [fetchLoop_cons_ok demoNet (("Tokyo"), tokyoCoords) [] tokyoRow tokyoRow_ok]
         exact List.Mem.head _)⟩

/-- Claim C6: the refresh action empties the memo unconditionally, and the
following fetch cycle hits the network and issues one request per city of
the static table, regardless of how much of the discarded entry's
600-second time-to-live remained. -/
theorem C6_refresh_forces_fetch :
    ∀ (net : String → Params → NetResult) (now : ℕ) (e : CacheEntry),
      now < e.storedAt + 600 →
      clearCache (some e) = none
      ∧ (refresh_action net now (some e)).2.2 = true
      ∧ (refresh_action net now (some e)).1 = fetch_weather_data net
      ∧ (refresh_action net now (some e)).1.requests
          = target_cities.map (fun lc => (lc.1, buildParams lc.2)) := by
  intro net now e _
  exact ⟨rfl, rfl, rfl, fetchLoop_requests_eq net target_cities⟩

/-- Witness for C6: refreshing a fresh (fully live) cache entry still hits
the network. -/
theorem C6_witness :
    clearCache (some ⟨0, fetch_weather_data demoNet⟩) = none
    ∧ (refresh_action demoNet 0 (some ⟨0, fetch_weather_data demoNet⟩)).2.2 = true
    ∧ (refresh_action demoNet 0 (some ⟨0, fetch_weather_data demoNet⟩)).1
        = fetch_weather_data demoNet
    ∧ (refresh_action demoNet 0 (some ⟨0, fetch_weather_data demoNet⟩)).1.requests
        = target_cities.map (fun lc => (lc.1, buildParams lc.2)) :=
  C6_refresh_forces_fetch demoNet 0 ⟨0, fetch_weather_data demoNet⟩ (by norm_num)

/-- Claim C7: the batch yields exactly one row per successful city, and the
rows' city names appear in the same relative order as the corresponding
entries of the input table. -/
theorem C7_row_order :
    ∀ (net : String → Params → NetResult) (cities : List (String × Coords)),
      (fetchLoop net cities).rows.map (fun r => r.City)
        = (cities.filter (fun lc => (outcomeFor net lc).toOption.isSome)).map (fun lc => lc.1)
      ∧ (fetchLoop net cities).rows.length
        = (cities.filter (fun lc => (outcomeFor net lc).toOption.isSome)).length := by
  intro net cities
  have hmap : (fetchLoop net cities).rows.map (fun r => r.City)
      = (cities.filter (fun lc => (outcomeFor net lc).toOption.isSome)).map (fun lc => lc.1) := by
    induction cities with
    | nil => rfl
    | cons lc rest ih =>
      cases hp : outcomeFor net lc with
      | ok row =>
        obtain ⟨status, cur, ts, dt, temp, hr, hs, ht, htm, hd, hrow_eq⟩ :=
          processCity_ok_shape lc.1 lc.2 _ row hp
        rw [fetchLoop_cons_ok net lc rest row hp, List.filter_cons]
        simp only [hp, Except.toOption, Option.isSome_some, if_pos, List.map_cons, ih]
        rw [hrow_eq]
      | error e =>
        rw [fetchLoop_cons_error net lc rest e hp, List.filter_cons]
        simp only [hp, Except.toOption, Option.isSome_none, Bool.false_eq_true, if_false, ih]
  refine ⟨hmap, ?_⟩
  have h1 := congrArg List.length hmap
  simpa using h1


/-- Claim C8: the batch issues one request per city of the static table, in
order, and each request's query parameters are exactly the city's static
latitude and longitude, `current=temperature_2m` and `timezone=Asia/Tokyo`. -/
theorem C8_request_params :
    ∀ net : String → Params → NetResult,
      (fetch_weather_data net).requests = target_cities.map (fun lc => (lc.1, buildParams lc.2))
      ∧ ∀ lc, lc ∈ target_cities →
          (lc.1, buildParams lc.2) ∈ (fetch_weather_data net).requests
          ∧ (buildParams lc.2).latitude = lc.2.lat
          ∧ (buildParams lc.2).longitude = lc.2.lon
          ∧ (buildParams lc.2).current = "temperature_2m"
          ∧ (buildParams lc.2).timezone = "Asia/Tokyo" := by
  intro net
  refine ⟨fetchLoop_requests_eq net target_cities, ?_⟩
  intro lc hmem
  refine ⟨?_, rfl, rfl, rfl, rfl⟩
  show (lc.1, buildParams lc.2) ∈ (fetchLoop net target_cities).requests
  rw [fetchLoop_requests_eq net target_cities]
  exact List.mem_map_of_mem (fun lc => (lc.1, buildParams lc.2)) hmem

def fukuokaCoords : Coords := ⟨33.5904, 130.4017⟩

/-- Witness for C8 at the first city of the static table. -/
theorem C8_witness :
    (("Fukuoka"), buildParams fukuokaCoords) ∈ (fetch_weather_data demoNet).requests
    ∧ (buildParams fukuokaCoords).latitude = fukuokaCoords.lat
    ∧ (buildParams fukuokaCoords).longitude = fukuokaCoords.lon
    ∧ (buildParams fukuokaCoords).current = "temperature_2m"
    ∧ (buildParams fukuokaCoords).timezone = "Asia/Tokyo" :=
  (C8_request_params demoNet).2 (("Fukuoka"), fukuokaCoords) (List.Mem.head _)

/-- Claim C9: every output row's RGBA color is one of the three fixed
values, its alpha component is 200, and it is determined by the row's
temperature through `colorOf`. -/
theorem C9_rgba_values :
    ∀ (net : String → Params → NetResult) (cities : List (String × Coords)) (row : Row),
      row ∈ (fetchLoop net cities).rows →
      (row.color = [255, 100, 0, 200] ∨ row.color = [255, 200, 0, 200]
        ∨ row.color = [0, 150, 255, 200])
      ∧ row.color.getD 3 0 = 200
      ∧ row.color = colorOf row.Temperature := by
  intro net cities row hrow
  obtain ⟨city, coords, hmem, hok⟩ := mem_rows_exists net cities row hrow
  obtain ⟨status, cur, ts, dt, temp, hr, hs, ht, htm, hd, hrow_eq⟩ :=
    processCity_ok_shape city coords _ row hok
  rw [hrow_eq]
  refine ⟨?_, ?_, rfl⟩
  · show colorOf temp = _ ∨ colorOf temp = _ ∨ colorOf temp = _
    unfold colorOf
    split_ifs
    · exact Or.inl rfl
    · exact Or.inr (Or.inl rfl)
    · exact Or.inr (Or.inr rfl)
  · show (colorOf temp).getD 3 0 = 200
    unfold colorOf
    split_ifs <;> rfl

/-- Witness for C9 at a concrete fetched row. -/
theorem C9_witness :
    (tokyoRow.color = [255, 100, 0, 200] ∨ tokyoRow.color = [255, 200, 0, 200]
      ∨ tokyoRow.color = [0, 150, 255, 200])
    ∧ tokyoRow.color.getD 3 0 = 200
    ∧ tokyoRow.color = colorOf tokyoRow.Temperature :=
  C9_rgba_values demoNet [(("Tokyo"), tokyoCoords)] tokyoRow
    (by rw [fetchLoop_cons_ok demoNet (("Tokyo"), tokyoCoords) [] tokyoRow tokyoRow_ok]
        exact List.Mem.head _)

/-- Claim C10: a successful row's temperature is the upstream
`temperature_2m` value verbatim, and that row enters the result unchanged. -/
theorem C10_temperature_verbatim :
    ∀ (net : String → Params → NetResult) (cities : List (String × Coords))
      (city : String) (coords : Coords) (status : ℕ) (cur : CurrentObj) (temp : ℚ) (row : Row),
      net city (buildParams coords) = NetResult.resp status (Body.obj (some cur)) →
      cur.temperature_2m = some temp →
      processCity city coords (net city (buildParams coords)) = Except.ok row →
      row.Temperature = temp
      ∧ ((city, coords) ∈ cities → row ∈ (fetchLoop net cities).rows) := by
  intro net cities city coords status cur temp row hnet htemp hok
  obtain ⟨status', cur', ts, dt, temp', hr, hs, ht, htm, hd, hrow_eq⟩ :=
    processCity_ok_shape city coords _ row hok
  rw [hnet] at hr
  injection hr with h1 h2
  injection h2 with h3
  injection h3 with h4
  subst h4
  have htt : temp' = temp := Option.some.inj (htm.symm.trans htemp)
  constructor
  · rw [hrow_eq]
    exact htt
  · intro hmem
    rw [fetchLoop_rows_eq]
    refine List.mem_filterMap.mpr ⟨(city, coords), hmem, ?_⟩
    show (processCity city coords (net city (buildParams coords))).toOption = some row
    rw [hok]
    rfl

/-- Witness for C10: the Tokyo row on the all-success oracle carries the
upstream 25 °C verbatim and appears in the result. -/
theorem C10_witness :
    tokyoRow.Temperature = 25
    ∧ tokyoRow ∈ (fetchLoop demoNet [(("Tokyo"), tokyoCoords)]).rows :=
  ⟨(C10_temperature_verbatim demoNet [(("Tokyo"), tokyoCoords)] ("Tokyo") tokyoCoords
      200 demoCurrent 25 tokyoRow rfl rfl tokyoRow_ok).1,
   (C10_temperature_verbatim demoNet [(("Tokyo"), tokyoCoords)] ("Tokyo") tokyoCoords
      200 demoCurrent 25 tokyoRow rfl rfl tokyoRow_ok).2 (List.Mem.head _)⟩

end StMap
